import Mathlib

/-!
# Quiz Master backend: shallow embedding

A shallow embedding of the Quiz Master backend (src/Backend/Database.js and
src/Backend/Server.js).  The relational store is a record of row lists with
AUTOINCREMENT counters; each Database.js method is a pure function on that
record; each Server.js route handler is a pure function from the store and a
parsed request body to the new store and an HTTP response.  JavaScript
falsiness on the optional JSON fields is modelled explicitly (`Option` for
absent fields, with `""` and `0` falsy).
-/

namespace QuizMaster

/-- JS truthiness for an optional string field: `undefined` and `""` are falsy. -/
def jsTruthyStr : Option String → Bool
  | none => false
  | some s => s != ""

/-- JS truthiness for an optional numeric field: `undefined` and `0` are falsy. -/
def jsTruthyNat : Option Nat → Bool
  | none => false
  | some n => n != 0

/-- JS `x || ''` on an optional string (used for `options[0] || ''`). -/
def jsOrEmptyStr (x : Option String) : String :=
  match x with
  | some s => if s = "" then "" else s
  | none => ""

/-- JS `x || null` on an optional string (used for `options[2] || null`):
`undefined` and `""` both become `null`. -/
def jsOrNullStr (x : Option String) : Option String :=
  match x with
  | some s => if s = "" then none else some s
  | none => none

/-- JS `x || d` on an optional number (used for `timeLimit || 10`):
`undefined` and `0` both yield the default. -/
def jsOrDefaultNat (x : Option Nat) (d : Nat) : Nat :=
  match x with
  | some n => if n = 0 then d else n
  | none => d

/-- JS `String.prototype.trim()`: strip leading and trailing whitespace
(modelled structurally over the character list). -/
def jsTrim (s : String) : String :=
  String.mk (((s.data.dropWhile Char.isWhitespace).reverse.dropWhile
    Char.isWhitespace).reverse)

/-! ## Rows of the four tables (Database.js `init`) -/

/-- A row of the `users` table. -/
structure UserRow where
  id : Nat
  username : String
  email : String
  password : String
  deriving Repr, DecidableEq

/-- A row of the `quizzes` table. -/
structure QuizRow where
  id : Nat
  title : String
  description : String
  time_limit : Nat
  user_id : Nat
  deriving Repr, DecidableEq

/-- A row of the `questions` table; `option_c`/`option_d` are nullable columns. -/
structure QuestionRow where
  id : Nat
  quiz_id : Nat
  question_text : String
  option_a : String
  option_b : String
  option_c : Option String
  option_d : Option String
  correct_answer : Nat
  question_order : Nat
  deriving Repr, DecidableEq

/-- A row of the `quiz_results` table (`answers` holds the serialized text). -/
structure ResultRow where
  id : Nat
  quiz_id : Nat
  user_id : Nat
  score : Nat
  total_questions : Nat
  time_taken : Nat
  answers : String
  deriving Repr, DecidableEq

/-- The relational store: the four tables plus AUTOINCREMENT counters
(sqlite's `lastID` is the id the next insert will not reuse). -/
structure DB where
  users : List UserRow
  quizzes : List QuizRow
  questions : List QuestionRow
  results : List ResultRow
  nextUserId : Nat
  nextQuizId : Nat
  nextQuestionId : Nat
  nextResultId : Nat
  deriving Repr, DecidableEq

/-- The empty store. -/
def DB.empty : DB :=
  { users := [], quizzes := [], questions := [], results := []
    nextUserId := 1, nextQuizId := 1, nextQuestionId := 1, nextResultId := 1 }

/-! ## Database.js methods -/

/-- `createUser`: INSERT INTO users; the UNIQUE constraints on `username` and
`email` make the insert fail when either already exists. -/
def createUser (db : DB) (username email password : String) :
    Except String (DB × Nat) :=
  if db.users.any (fun u => u.username == username || u.email == email) then
    Except.error "UNIQUE constraint failed"
  else
    let id := db.nextUserId
    Except.ok
      ({ db with
          users := db.users ++ [⟨id, username, email, password⟩]
          nextUserId := id + 1 }, id)

/-- `getUserByEmail`: SELECT * FROM users WHERE email = ? (first row or absence). -/
def getUserByEmail (db : DB) (email : String) : Option UserRow :=
  db.users.find? (fun u => u.email == email)

/-- The `quizData` argument of `createQuiz`. -/
structure QuizData where
  title : String
  description : String
  time_limit : Nat
  user_id : Nat
  deriving Repr, DecidableEq

/-- `createQuiz`: INSERT INTO quizzes, returning the new row id. -/
def createQuiz (db : DB) (q : QuizData) : DB × Nat :=
  let id := db.nextQuizId
  ({ db with
      quizzes := db.quizzes ++ [⟨id, q.title, q.description, q.time_limit, q.user_id⟩]
      nextQuizId := id + 1 }, id)

/-- The `questionData` argument of `addQuestion`. -/
structure QuestionData where
  quiz_id : Nat
  question_text : String
  option_a : String
  option_b : String
  option_c : Option String
  option_d : Option String
  correct_answer : Nat
  question_order : Nat
  deriving Repr, DecidableEq

/-- `addQuestion`: INSERT INTO questions. -/
def addQuestion (db : DB) (q : QuestionData) : DB :=
  let id := db.nextQuestionId
  { db with
      questions := db.questions ++
        [⟨id, q.quiz_id, q.question_text, q.option_a, q.option_b,
          q.option_c, q.option_d, q.correct_answer, q.question_order⟩]
      nextQuestionId := id + 1 }

/-- Stable insertion into a list sorted by `question_order` (ties keep the
earlier row first, matching a stable ORDER BY). -/
def insertByOrder (q : QuestionRow) : List QuestionRow → List QuestionRow
  | [] => [q]
  | r :: rs =>
    if q.question_order ≤ r.question_order then q :: r :: rs
    else r :: insertByOrder q rs

/-- `ORDER BY question_order` as a stable sort. -/
def sortByOrder : List QuestionRow → List QuestionRow
  | [] => []
  | q :: qs => insertByOrder q (sortByOrder qs)

/-- One formatted question of `getQuizById`'s reply (`formattedQuestions`). -/
structure FormattedQuestion where
  id : Nat
  text : String
  options : List String
  correct : Nat
  deriving Repr, DecidableEq

/-- The JS `[option_a, option_b, option_c, option_d].filter(opt => opt !== null
&& opt !== undefined && opt !== '')` reconstruction of the dense option list. -/
def formatOptions (a b : String) (c d : Option String) : List String :=
  [some a, some b, c, d].filterMap
    (fun o => match o with
      | some s => if s = "" then none else some s
      | none => none)

/-- `getQuizById`'s per-row formatting of a question. -/
def formatQuestion (q : QuestionRow) : FormattedQuestion :=
  { id := q.id
    text := q.question_text
    options := formatOptions q.option_a q.option_b q.option_c q.option_d
    correct := q.correct_answer }

/-- `{ ...quiz, questions: formattedQuestions }`. -/
structure QuizFull where
  id : Nat
  title : String
  description : String
  time_limit : Nat
  user_id : Nat
  questions : List FormattedQuestion
  deriving Repr, DecidableEq

/-- `getQuizById`: the quiz row (or absence), merged with its questions
ordered by `question_order` and reconstructed into dense option lists. -/
def getQuizById (db : DB) (id : Nat) : Option QuizFull :=
  match db.quizzes.find? (fun qz => qz.id == id) with
  | none => none
  | some quiz =>
    let rows := sortByOrder (db.questions.filter (fun qr => qr.quiz_id == id))
    some
      { id := quiz.id, title := quiz.title, description := quiz.description
        time_limit := quiz.time_limit, user_id := quiz.user_id
        questions := rows.map formatQuestion }

/-- `deleteQuiz`: DELETE FROM questions WHERE quiz_id = ?, then DELETE FROM
quizzes WHERE id = ? AND user_id = ?; returns `this.changes` of the second
statement (count of quiz rows removed). -/
def deleteQuiz (db : DB) (quizId userId : Nat) : DB × Nat :=
  let db1 := { db with questions := db.questions.filter (fun qr => !(qr.quiz_id == quizId)) }
  let remaining := db1.quizzes.filter (fun qz => !(qz.id == quizId && qz.user_id == userId))
  let changes := db1.quizzes.length - remaining.length
  ({ db1 with quizzes := remaining }, changes)

/-- The `resultData` argument of `saveResult` (`answers` already serialized). -/
structure ResultData where
  quiz_id : Nat
  user_id : Nat
  score : Nat
  total_questions : Nat
  time_taken : Nat
  answers : String
  deriving Repr, DecidableEq

/-- `saveResult`: INSERT INTO quiz_results, returning the new row id. -/
def saveResult (db : DB) (r : ResultData) : DB × Nat :=
  let id := db.nextResultId
  ({ db with
      results := db.results ++
        [⟨id, r.quiz_id, r.user_id, r.score, r.total_questions, r.time_taken, r.answers⟩]
      nextResultId := id + 1 }, id)

/-! ## Server.js handlers

The bcrypt primitives are delegated to a library in the source; here the hash
is an explicit tagging function and `bcrypt.compare` checks the tag, which
preserves exactly what the handlers observe: whether the password verifies. -/

/-- Model of `bcrypt.hash` (opaque, injective tagging). -/
def bhash (password : String) : String := "bcrypt$" ++ password

/-- Model of `bcrypt.compare password storedHash`. -/
def bcompare (password storedHash : String) : Bool :=
  bhash password == storedHash

/-- Response of POST /api/register. -/
structure RegisterResponse where
  status : Nat
  error : Option String
  token : Option (Nat × String)
  userId : Option Nat
  deriving Repr, DecidableEq

/-- POST /api/register: validate, pre-check the email, hash, insert, token. -/
def registerHandler (db : DB) (username email password : Option String) :
    DB × RegisterResponse :=
  if !(jsTruthyStr username) || !(jsTruthyStr email) || !(jsTruthyStr password) then
    (db, ⟨400, some "All fields are required", none, none⟩)
  else if (password.getD "").length < 6 then
    (db, ⟨400, some "Password must be at least 6 characters long", none, none⟩)
  else
    match getUserByEmail db (email.getD "") with
    | some _ => (db, ⟨400, some "User already exists", none, none⟩)
    | none =>
      match createUser db (username.getD "") (email.getD "") (bhash (password.getD "")) with
      | Except.error _ => (db, ⟨500, some "Error creating user", none, none⟩)
      | Except.ok (db2, userId) =>
        (db2, ⟨201, none, some (userId, username.getD ""), some userId⟩)

/-- Response of POST /api/login. -/
structure LoginResponse where
  status : Nat
  error : Option String
  token : Option (Nat × String)
  user : Option (Nat × String × String)
  deriving Repr, DecidableEq

/-- POST /api/login: look the user up by email, verify the password. -/
def loginHandler (db : DB) (email password : Option String) : LoginResponse :=
  if !(jsTruthyStr email) || !(jsTruthyStr password) then
    ⟨400, some "Email and password are required", none, none⟩
  else
    match getUserByEmail db (email.getD "") with
    | none => ⟨400, some "Invalid credentials", none, none⟩
    | some user =>
      if bcompare (password.getD "") user.password then
        ⟨200, none, some (user.id, user.username),
          some (user.id, user.username, user.email)⟩
      else
        ⟨400, some "Invalid credentials", none, none⟩

/-- One element of the `questions` array of a POST /api/quizzes body. -/
structure QuestionInput where
  text : String
  options : List String
  correct : Nat
  deriving Repr, DecidableEq

/-- The handler's `description ? description.trim() : ''` (a falsy description
becomes the empty string). -/
def jsDescOrEmpty (description : Option String) : String :=
  match description with
  | some d => if d = "" then "" else jsTrim d
  | none => ""

/-- The `questionData` object the create-quiz handler builds for question
`index`: options are mapped positionally into the four fixed slots,
`options[0] || ''`, `options[1] || ''`, `options[2] || null`, `options[3] || null`. -/
def mkQuestionData (quizId : Nat) (q : QuestionInput) (index : Nat) : QuestionData :=
  { quiz_id := quizId
    question_text := q.text
    option_a := jsOrEmptyStr q.options[0]?
    option_b := jsOrEmptyStr q.options[1]?
    option_c := jsOrNullStr q.options[2]?
    option_d := jsOrNullStr q.options[3]?
    correct_answer := q.correct
    question_order := index }

/-- The handler's `questions.forEach` loop of `addQuestion` calls with the
`hasError` flag: `fails` injects a storage failure per write (sqlite runs the
callbacks in issue order, so the loop is sequential); a failed write sets the
flag and the loop continues to the remaining writes. -/
def addQuestionsLoop (db : DB) (quizId : Nat) (qs : List QuestionInput)
    (fails : List Bool) (index : Nat) : DB × Bool :=
  match qs with
  | [] => (db, false)
  | q :: rest =>
    let failed := fails.headD false
    let db2 := if failed then db else addQuestion db (mkQuestionData quizId q index)
    let r := addQuestionsLoop db2 quizId rest fails.tail (index + 1)
    (r.1, failed || r.2)

/-- Response of POST /api/quizzes. -/
structure CreateQuizResponse where
  status : Nat
  error : Option String
  quizId : Option Nat
  deriving Repr, DecidableEq

/-- POST /api/quizzes: validate title and questions, insert the quiz, then
issue one `addQuestion` per question; the response is sent only once
`questionsAdded === questions.length`, 500 if any write failed, else 201. -/
def createQuizHandler (db : DB) (userId : Nat) (title description : Option String)
    (timeLimit : Option Nat) (questions : List QuestionInput) (fails : List Bool) :
    DB × CreateQuizResponse :=
  if !(jsTruthyStr title) || jsTrim (title.getD "") = "" then
    (db, ⟨400, some "Quiz title is required", none⟩)
  else if questions.length = 0 then
    (db, ⟨400, some "At least one question is required", none⟩)
  else
    let created := createQuiz db
      { title := jsTrim (title.getD "")
        description := jsDescOrEmpty description
        time_limit := jsOrDefaultNat timeLimit 10
        user_id := userId }
    let r := addQuestionsLoop created.1 created.2 questions fails 0
    if r.2 then
      (r.1, ⟨500, some "Some questions failed to save", none⟩)
    else
      (r.1, ⟨201, none, some created.2⟩)

/-- Response of GET /api/quizzes/:id. -/
structure GetQuizResponse where
  status : Nat
  error : Option String
  quiz : Option QuizFull
  deriving Repr, DecidableEq

/-- GET /api/quizzes/:id: absence from `getQuizById` becomes 404. -/
def getQuizHandler (db : DB) (quizId : Nat) : GetQuizResponse :=
  match getQuizById db quizId with
  | none => ⟨404, some "Quiz not found", none⟩
  | some quiz => ⟨200, none, some quiz⟩

/-- Response of DELETE /api/quizzes/:id. -/
structure DeleteQuizResponse where
  status : Nat
  error : Option String
  deriving Repr, DecidableEq

/-- DELETE /api/quizzes/:id: zero removed quiz rows becomes 404. -/
def deleteQuizHandler (db : DB) (quizId userId : Nat) : DB × DeleteQuizResponse :=
  let (db2, changes) := deleteQuiz db quizId userId
  if changes = 0 then
    (db2, ⟨404, some "Quiz not found or access denied"⟩)
  else
    (db2, ⟨200, none⟩)

/-- Response of POST /api/quiz-results. -/
structure SaveResultResponse where
  status : Nat
  error : Option String
  resultId : Option Nat
  deriving Repr, DecidableEq

/-- POST /api/quiz-results: `!quizId || score === undefined || !totalQuestions
|| !timeTaken` rejects with 400 before any write; otherwise insert and reply
with the new result id. -/
def saveResultHandler (db : DB) (userId : Nat)
    (quizId score totalQuestions timeTaken : Option Nat) (answers : String) :
    DB × SaveResultResponse :=
  if !(jsTruthyNat quizId) || score.isNone || !(jsTruthyNat totalQuestions)
      || !(jsTruthyNat timeTaken) then
    (db, ⟨400, some "Missing required fields", none⟩)
  else
    let (db2, resultId) := saveResult db
      { quiz_id := quizId.getD 0, user_id := userId, score := score.getD 0
        total_questions := totalQuestions.getD 0, time_taken := timeTaken.getD 0
        answers := answers }
    (db2, ⟨200, none, some resultId⟩)


/-! ## Derived descriptions of the create-quiz write sequence -/

/-- The question row the loop's successful write for input `q` at position
`index` produces when the store's question counter stands at `qid`. -/
def mkQuestionRow (quizId : Nat) (q : QuestionInput) (index qid : Nat) : QuestionRow :=
  { id := qid
    quiz_id := quizId
    question_text := q.text
    option_a := jsOrEmptyStr q.options[0]?
    option_b := jsOrEmptyStr q.options[1]?
    option_c := jsOrNullStr q.options[2]?
    option_d := jsOrNullStr q.options[3]?
    correct_answer := q.correct
    question_order := index }

/-- The question rows `addQuestionsLoop` appends: one per input whose write
does not fail, in submission order. -/
def loopRows (quizId : Nat) : List QuestionInput → List Bool → Nat → Nat → List QuestionRow
  | [], _, _, _ => []
  | q :: rest, fs, index, qid =>
    if fs.headD false then loopRows quizId rest fs.tail (index + 1) qid
    else mkQuestionRow quizId q index qid :: loopRows quizId rest fs.tail (index + 1) (qid + 1)

/-! ## Concrete stores used by the closed theorems -/

/-- A store holding quiz 1 owned by user 1 with a single question. -/
def dbOwned : DB :=
  { users := [], results := []
    quizzes := [⟨1, "T", "", 10, 1⟩]
    questions := [⟨1, 1, "Q1", "A", "B", none, none, 0, 0⟩]
    nextUserId := 1, nextQuizId := 2, nextQuestionId := 2, nextResultId := 1 }

/-- A store holding the single user `alice` / `a@x.com`. -/
def dbAlice : DB :=
  { users := [⟨1, "alice", "a@x.com", bhash "password1"⟩]
    quizzes := [], questions := [], results := []
    nextUserId := 2, nextQuizId := 1, nextQuestionId := 1, nextResultId := 1 }

/-- C2: delete of quiz 1 by authenticated non-owner user 2 answers 404 and
leaves the quiz row in place, but it destroys the quiz's question rows — the
questions DELETE is not filtered by owner and runs before the ownership check,
so the stored state is not unchanged as the claim requires. -/
theorem deleteQuiz_nonOwner_destroys_questions :
    (deleteQuizHandler dbOwned 1 2).2.status = 404 ∧
    (deleteQuizHandler dbOwned 1 2).1.quizzes = dbOwned.quizzes ∧
    dbOwned.questions ≠ [] ∧
    (deleteQuizHandler dbOwned 1 2).1.questions = [] := by
  refine ⟨rfl, rfl, ?_, rfl⟩
  decide

/-- C3 counterexample: a Create-Quiz run in which the first of two question
writes fails does not report success — the response is 500
"Some questions failed to save", not a 201 with the quiz id. -/
theorem createQuiz_partial_failure_reports_500 :
    (createQuizHandler DB.empty 7 (some "T") none none
        [⟨"Q1", ["A", "B"], 0⟩, ⟨"Q2", ["C", "D"], 1⟩] [true, false]).2 =
      ⟨500, some "Some questions failed to save", none⟩ := by
  rfl

/-- C4 counterexample: with `alice`/`a@x.com` registered, registering username
`alice` under the fresh email `b@x.com` passes the email pre-check, hits the
storage unique constraint, and is answered 500 "Error creating user" — not the
Conflict 400 the claim states for the duplicate-username case. -/
theorem register_duplicate_username_not_conflict :
    (registerHandler dbAlice (some "alice") (some "b@x.com") (some "secret1")).2 =
      ⟨500, some "Error creating user", none, none⟩ := by
  rfl

/-- C8 counterexample: a request whose quizId, totalQuestions and timeTaken are
all present (totalQuestions supplied as the value 0) and whose score is 0 is
rejected by validation with 400 "Missing required fields" instead of being
persisted — present-but-zero fields fail the falsiness check. -/
theorem saveResult_present_zero_rejected :
    (saveResultHandler DB.empty 1 (some 1) (some 0) (some 0) (some 5) "[]").2 =
      ⟨400, some "Missing required fields", none⟩ ∧
    (saveResultHandler DB.empty 1 (some 1) (some 0) (some 0) (some 5) "[]").1 =
      DB.empty := by
  exact ⟨rfl, rfl⟩

/-- C5: a login for an email with no registered user and a login for a
registered email with a password that does not verify against the stored hash
produce identical responses — both 400 "Invalid credentials", with no field
distinguishing the two. -/
theorem login_failures_indistinguishable (db : DB) (e1 p1 e2 p2 : String) (u : UserRow)
    (he1 : e1 ≠ "") (hp1 : p1 ≠ "") (he2 : e2 ≠ "") (hp2 : p2 ≠ "")
    (hnone : getUserByEmail db e1 = none)
    (hsome : getUserByEmail db e2 = some u)
    (hbad : bcompare p2 u.password = false) :
    loginHandler db (some e1) (some p1) = loginHandler db (some e2) (some p2) ∧
    (loginHandler db (some e1) (some p1)).status = 400 ∧
    (loginHandler db (some e1) (some p1)).error = some "Invalid credentials" := by
  unfold loginHandler
  simp [jsTruthyStr, he1, hp1, he2, hp2, hnone, hsome, hbad]

/-- C5 witness: the generic indistinguishability theorem applied to the
concrete store `dbAlice`. -/
theorem login_failures_indistinguishable_witness :
    loginHandler dbAlice (some "x@x.com") (some "password1") =
      loginHandler dbAlice (some "a@x.com") (some "wrong") ∧
    (loginHandler dbAlice (some "x@x.com") (some "password1")).status = 400 ∧
    (loginHandler dbAlice (some "x@x.com") (some "password1")).error =
      some "Invalid credentials" :=
  login_failures_indistinguishable dbAlice "x@x.com" "password1" "a@x.com" "wrong"
    ⟨1, "alice", "a@x.com", bhash "password1"⟩
    (by decide) (by decide) (by decide) (by decide) (by rfl) (by rfl) (by decide)

/-- C6: a question persisted through the create-quiz handler's `questionData`
and `addQuestion` stores `option_c` as null whenever option 3 is absent from
the supplied option list, and `option_d` as null whenever option 4 is absent —
never as the empty string. -/
theorem question_absent_options_stored_null (db : DB) (quizId : Nat)
    (q : QuestionInput) (index : Nat) :
    ∃ r : QuestionRow,
      (addQuestion db (mkQuestionData quizId q index)).questions = db.questions ++ [r] ∧
      (q.options[2]? = none → r.option_c = none) ∧
      (q.options[3]? = none → r.option_d = none) := by
  refine ⟨_, rfl, ?_, ?_⟩ <;> intro h <;>
    simp [addQuestion, mkQuestionData, jsOrNullStr, h]

/-- C6 witness: a two-option question stores null in both optional columns. -/
theorem question_absent_options_stored_null_witness :
    ∃ r : QuestionRow,
      (addQuestion DB.empty (mkQuestionData 1 ⟨"Q", ["A", "B"], 0⟩ 0)).questions =
        DB.empty.questions ++ [r] ∧ r.option_c = none ∧ r.option_d = none := by
  obtain ⟨r, hr, hc, hd⟩ :=
    question_absent_options_stored_null DB.empty 1 ⟨"Q", ["A", "B"], 0⟩ 0
  exact ⟨r, hr, hc rfl, hd rfl⟩

/-- C9: a save-result request with `timeTaken = 0` or `totalQuestions = 0` is
rejected with 400 "Missing required fields" and the store is untouched (no
write happens), because those fields are checked for falsiness. -/
theorem saveResult_zero_fields_rejected (db : DB) (userId : Nat)
    (quizId score totalQuestions timeTaken : Option Nat) (answers : String)
    (h : timeTaken = some 0 ∨ totalQuestions = some 0) :
    saveResultHandler db userId quizId score totalQuestions timeTaken answers =
      (db, ⟨400, some "Missing required fields", none⟩) := by
  unfold saveResultHandler
  rcases h with h | h <;> subst h <;> simp [jsTruthyNat]

/-- C9 witness: `timeTaken = 0` with every other field valid is rejected. -/
theorem saveResult_zero_fields_rejected_witness :
    saveResultHandler DB.empty 1 (some 1) (some 3) (some 4) (some 0) "[]" =
      (DB.empty, ⟨400, some "Missing required fields", none⟩) :=
  saveResult_zero_fields_rejected DB.empty 1 (some 1) (some 3) (some 4) (some 0) "[]"
    (Or.inl rfl)

/-- C7: `getQuizById` returns absence exactly when no quiz row with the id
exists; an existing quiz none of whose questions exist still returns with an
empty question list; and the GET handler answers 404 exactly on absence. -/
theorem getQuizById_absence_spec (db : DB) (id : Nat) :
    (getQuizById db id = none ↔ ∀ qz ∈ db.quizzes, qz.id ≠ id) ∧
    ((∃ qz ∈ db.quizzes, qz.id = id) → (∀ qr ∈ db.questions, qr.quiz_id ≠ id) →
      ∃ qf, getQuizById db id = some qf ∧ qf.questions = []) ∧
    ((getQuizHandler db id).status = 404 ↔ getQuizById db id = none) := by
  refine ⟨?_, ?_, ?_⟩
  · unfold getQuizById
    rcases hf : db.quizzes.find? (fun qz => qz.id == id) with _ | qz
    · rw [hf]
      simp only [List.find?_eq_none] at hf
      simpa using hf
    · rw [hf]
      have h1 : qz.id = id := by simpa using List.find?_some hf
      have h2 : qz ∈ db.quizzes := List.mem_of_find?_eq_some hf
      simp only [reduceCtorEq, false_iff, not_forall]
      exact ⟨qz, h2, by simp [h1]⟩
  · intro hex hnoq
    have hsome : (db.quizzes.find? (fun qz => qz.id == id)).isSome = true := by
      rw [List.find?_isSome]
      obtain ⟨qz, hqz, hid⟩ := hex
      exact ⟨qz, hqz, by simpa using hid⟩
    rcases hf : db.quizzes.find? (fun qz => qz.id == id) with _ | qz
    · rw [hf] at hsome; cases hsome
    · have hfil : db.questions.filter (fun qr => qr.quiz_id == id) = [] := by
        rw [List.filter_eq_nil_iff]
        intro qr hqr
        simpa using hnoq qr hqr
      refine ⟨⟨qz.id, qz.title, qz.description, qz.time_limit, qz.user_id, []⟩, ?_, rfl⟩
      unfold getQuizById
      rw [hf, hfil]
      rfl
  · unfold getQuizHandler
    rcases getQuizById db id with _ | qf <;> simp

/-- C7 witness: on `dbOwned`, quiz 5 is absent (and the handler answers 404),
while deleting nothing — quiz 1 exists; on a store holding quiz 2 with no
question rows, the quiz comes back with an empty question list. -/
theorem getQuizById_absence_spec_witness :
    getQuizById dbOwned 5 = none ∧
    (getQuizHandler dbOwned 5).status = 404 ∧
    ∃ qf, getQuizById
        { dbOwned with quizzes := dbOwned.quizzes ++ [⟨2, "E", "", 10, 1⟩], nextQuizId := 3 }
        2 = some qf ∧ qf.questions = [] := by
  refine ⟨?_, ?_, ?_⟩
  · exact (getQuizById_absence_spec dbOwned 5).1.mpr (by decide)
  · exact ((getQuizById_absence_spec dbOwned 5).2.2).mpr
      ((getQuizById_absence_spec dbOwned 5).1.mpr (by decide))
  · exact (getQuizById_absence_spec
        { dbOwned with quizzes := dbOwned.quizzes ++ [⟨2, "E", "", 10, 1⟩], nextQuizId := 3 }
        2).2.1 (by refine ⟨⟨2, "E", "", 10, 1⟩, by decide, rfl⟩) (by decide)

/-! ## Helper lemmas about the create-quiz write sequence -/

/-- The loop touches only the questions table and its counter. -/
theorem addQuestionsLoop_state (quizId : Nat) (qs : List QuestionInput) :
    ∀ (db : DB) (fs : List Bool) (index : Nat),
      (addQuestionsLoop db quizId qs fs index).1.quizzes = db.quizzes ∧
      (addQuestionsLoop db quizId qs fs index).1.users = db.users ∧
      (addQuestionsLoop db quizId qs fs index).1.results = db.results ∧
      (addQuestionsLoop db quizId qs fs index).1.nextQuizId = db.nextQuizId := by
  induction qs with
  | nil => intro db fs index; simp [addQuestionsLoop]
  | cons q rest ih =>
    intro db fs index
    rcases fs with _ | ⟨b, t⟩
    · simp [addQuestionsLoop, ih, addQuestion]
    · cases b <;> simp [addQuestionsLoop, ih, addQuestion]

/-- The loop appends exactly the `loopRows` rows to the questions table. -/
theorem addQuestionsLoop_questions (quizId : Nat) (qs : List QuestionInput) :
    ∀ (db : DB) (fs : List Bool) (index : Nat),
      (addQuestionsLoop db quizId qs fs index).1.questions =
        db.questions ++ loopRows quizId qs fs index db.nextQuestionId := by
  induction qs with
  | nil => intro db fs index; simp [addQuestionsLoop, loopRows]
  | cons q rest ih =>
    intro db fs index
    rcases fs with _ | ⟨b, t⟩
    · simp [addQuestionsLoop, loopRows, ih, addQuestion, mkQuestionData, mkQuestionRow]
    · cases b <;>
        simp [addQuestionsLoop, loopRows, ih, addQuestion, mkQuestionData, mkQuestionRow]

/-- With no injected failures the loop's error flag stays false. -/
theorem addQuestionsLoop_noFails (quizId : Nat) (qs : List QuestionInput) :
    ∀ (db : DB) (index : Nat), (addQuestionsLoop db quizId qs [] index).2 = false := by
  induction qs with
  | nil => intro db index; simp [addQuestionsLoop]
  | cons q rest ih => intro db index; simp [addQuestionsLoop, ih]

/-- `getD` through `tail`. -/
theorem tail_getD (fs : List Bool) (i : Nat) :
    fs.tail.getD i false = fs.getD (i + 1) false := by
  cases fs <;> simp

/-- A failure injected at any position covered by the question list sets the
loop's error flag. -/
theorem addQuestionsLoop_snd_of_fail (quizId : Nat) (qs : List QuestionInput) :
    ∀ (db : DB) (fs : List Bool) (index : Nat),
      (∃ i, i < qs.length ∧ fs.getD i false = true) →
      (addQuestionsLoop db quizId qs fs index).2 = true := by
  induction qs with
  | nil =>
    intro db fs index h
    obtain ⟨i, hi, _⟩ := h
    simp at hi
  | cons q rest ih =>
    intro db fs index h
    obtain ⟨i, hi, hgd⟩ := h
    simp only [addQuestionsLoop, Bool.or_eq_true]
    cases i with
    | zero =>
      left
      cases fs with
      | nil => simp at hgd
      | cons b t => simpa using hgd
    | succ j =>
      right
      refine ih _ fs.tail (index + 1) ⟨j, by simpa using hi, ?_⟩
      rw [tail_getD]
      exact hgd

/-- Every row the loop produces has `question_order ≥` the starting index. -/
theorem loopRows_order_ge (quizId : Nat) (qs : List QuestionInput) :
    ∀ (fs : List Bool) (index qid : Nat) (r : QuestionRow),
      r ∈ loopRows quizId qs fs index qid → index ≤ r.question_order := by
  induction qs with
  | nil => intro fs index qid r hr; simp [loopRows] at hr
  | cons q rest ih =>
    intro fs index qid r hr
    by_cases h : fs.headD false = true
    · rw [loopRows, if_pos h] at hr
      exact Nat.le_trans (Nat.le_succ index) (ih fs.tail (index + 1) qid r hr)
    · rw [loopRows, if_neg h] at hr
      rcases List.mem_cons.mp hr with rfl | hr
      · exact Nat.le_refl _
      · exact Nat.le_trans (Nat.le_succ index) (ih fs.tail (index + 1) (qid + 1) r hr)

/-- The loop's rows come out already sorted by `question_order`. -/
theorem loopRows_pairwise (quizId : Nat) (qs : List QuestionInput) :
    ∀ (fs : List Bool) (index qid : Nat),
      (loopRows quizId qs fs index qid).Pairwise
        (fun a b => a.question_order ≤ b.question_order) := by
  induction qs with
  | nil => intro fs index qid; simp [loopRows]
  | cons q rest ih =>
    intro fs index qid
    by_cases h : fs.headD false = true
    · rw [loopRows, if_pos h]
      exact ih fs.tail (index + 1) qid
    · rw [loopRows, if_neg h]
      refine List.Pairwise.cons ?_ (ih fs.tail (index + 1) (qid + 1))
      intro r hr
      have hge := loopRows_order_ge quizId rest fs.tail (index + 1) (qid + 1) r hr
      simpa [mkQuestionRow] using Nat.le_trans (Nat.le_succ index) hge

/-- A list already sorted by `question_order` is unchanged by the sort. -/
theorem sortByOrder_sorted (l : List QuestionRow)
    (h : l.Pairwise (fun a b => a.question_order ≤ b.question_order)) :
    sortByOrder l = l := by
  induction l with
  | nil => rfl
  | cons q rest ih =>
    rcases List.pairwise_cons.mp h with ⟨hq, hrest⟩
    rw [sortByOrder, ih hrest]
    cases rest with
    | nil => rfl
    | cons r rs =>
      rw [insertByOrder, if_pos (hq r (by simp))]

/-- For 2-4 non-empty submitted options, the positional slot mapping followed
by the null/empty filter reconstructs exactly the submitted list. -/
theorem formatOptions_roundtrip (os : List String)
    (h2 : 2 ≤ os.length) (h4 : os.length ≤ 4) (hne : ∀ o ∈ os, o ≠ "") :
    formatOptions (jsOrEmptyStr os[0]?) (jsOrEmptyStr os[1]?)
      (jsOrNullStr os[2]?) (jsOrNullStr os[3]?) = os := by
  rcases os with _ | ⟨a, _ | ⟨b, _ | ⟨c, _ | ⟨d, _ | ⟨e, rest⟩⟩⟩⟩⟩
  · simp at h2
  · simp at h2
  · have ha := hne a (by simp)
    have hb := hne b (by simp)
    simp [formatOptions, jsOrEmptyStr, jsOrNullStr, ha, hb]
  · have ha := hne a (by simp)
    have hb := hne b (by simp)
    have hc := hne c (by simp)
    simp [formatOptions, jsOrEmptyStr, jsOrNullStr, ha, hb, hc]
  · have ha := hne a (by simp)
    have hb := hne b (by simp)
    have hc := hne c (by simp)
    have hd := hne d (by simp)
    simp [formatOptions, jsOrEmptyStr, jsOrNullStr, ha, hb, hc, hd]
  · simp at h4

/-- Formatting the stored row recovers the submitted question unchanged. -/
theorem formatQuestion_mkQuestionRow (quizId : Nat) (q : QuestionInput) (index qid : Nat)
    (h2 : 2 ≤ q.options.length) (h4 : q.options.length ≤ 4)
    (hne : ∀ o ∈ q.options, o ≠ "") :
    formatQuestion (mkQuestionRow quizId q index qid) =
      ⟨qid, q.text, q.options, q.correct⟩ := by
  simp [formatQuestion, mkQuestionRow, formatOptions_roundtrip q.options h2 h4 hne]

/-- A validated create-quiz request reduces to the quiz insert followed by the
question-write loop. -/
theorem createQuizHandler_valid (db : DB) (userId : Nat) (title : String)
    (description : Option String) (timeLimit : Option Nat) (qs : List QuestionInput)
    (fails : List Bool) (htitle : jsTrim title ≠ "") (hqs : qs ≠ []) :
    createQuizHandler db userId (some title) description timeLimit qs fails =
      ((addQuestionsLoop
          { db with
              quizzes := db.quizzes ++
                [⟨db.nextQuizId, jsTrim title, jsDescOrEmpty description,
                  jsOrDefaultNat timeLimit 10, userId⟩]
              nextQuizId := db.nextQuizId + 1 }
          db.nextQuizId qs fails 0).1,
        if (addQuestionsLoop
            { db with
                quizzes := db.quizzes ++
                  [⟨db.nextQuizId, jsTrim title, jsDescOrEmpty description,
                    jsOrDefaultNat timeLimit 10, userId⟩]
                nextQuizId := db.nextQuizId + 1 }
            db.nextQuizId qs fails 0).2 = true then
          ⟨500, some "Some questions failed to save", none⟩
        else ⟨201, none, some db.nextQuizId⟩) := by
  have ht : title ≠ "" := by
    intro h
    exact htitle (by rw [h]; rfl)
  unfold createQuizHandler createQuiz
  simp only [jsTruthyStr, Option.getD_some]
  rw [if_neg (by simp [ht, htitle]), if_neg (by simp [hqs])]
  split <;> rfl

/-- Every row the loop produces carries the created quiz's id. -/
theorem loopRows_quiz_id (quizId : Nat) (qs : List QuestionInput) :
    ∀ (fs : List Bool) (index qid : Nat) (r : QuestionRow),
      r ∈ loopRows quizId qs fs index qid → r.quiz_id = quizId := by
  induction qs with
  | nil => intro fs index qid r hr; simp [loopRows] at hr
  | cons q rest ih =>
    intro fs index qid r hr
    by_cases h : fs.headD false = true
    · rw [loopRows, if_pos h] at hr
      exact ih fs.tail (index + 1) qid r hr
    · rw [loopRows, if_neg h] at hr
      rcases List.mem_cons.mp hr with rfl | hr
      · rfl
      · exact ih fs.tail (index + 1) (qid + 1) r hr

/-- With no failures, formatting the loop's rows recovers the submitted
questions in order — same texts, same dense option lists, same correct
indices — and every recovered correct index is in range. -/
theorem loopRows_format_roundtrip (quizId : Nat) (qs : List QuestionInput) :
    ∀ (index qid : Nat),
      (∀ q ∈ qs, 2 ≤ q.options.length ∧ q.options.length ≤ 4 ∧
        (∀ o ∈ q.options, o ≠ "") ∧ q.correct < q.options.length) →
      ((loopRows quizId qs [] index qid).map formatQuestion).map
          (fun fq => (fq.text, fq.options, fq.correct)) =
        qs.map (fun q => (q.text, q.options, q.correct)) ∧
      ∀ fq ∈ (loopRows quizId qs [] index qid).map formatQuestion,
        fq.correct < fq.options.length := by
  induction qs with
  | nil => intro index qid h; simp [loopRows]
  | cons q rest ih =>
    intro index qid h
    have hq := h q (by simp)
    have hrest : ∀ r ∈ rest, 2 ≤ r.options.length ∧ r.options.length ≤ 4 ∧
        (∀ o ∈ r.options, o ≠ "") ∧ r.correct < r.options.length :=
      fun r hr => h r (List.mem_cons_of_mem _ hr)
    have hfmt := formatQuestion_mkQuestionRow quizId q index qid hq.1 hq.2.1 hq.2.2.1
    obtain ⟨ih1, ih2⟩ := ih (index + 1) (qid + 1) hrest
    have hcons : loopRows quizId (q :: rest) [] index qid =
        mkQuestionRow quizId q index qid :: loopRows quizId rest [] (index + 1) (qid + 1) := by
      simp [loopRows]
    constructor
    · rw [hcons]
      simp [hfmt, ih1]
    · intro fq hfq
      rw [hcons] at hfq
      simp only [List.map_cons, List.mem_cons] at hfq
      rcases hfq with rfl | hfq
      · rw [hfmt]
        exact hq.2.2.2
      · exact ih2 fq hfq

/-- Fetching the created quiz after a failure-free question-write loop yields
the found quiz row merged with the formatted loop rows. -/
theorem getQuizById_after_noFail_loop (db1 : DB) (quizId : Nat)
    (qs : List QuestionInput) (qz : QuizRow)
    (hfind : db1.quizzes.find? (fun r => r.id == quizId) = some qz)
    (hnoq : ∀ qr ∈ db1.questions, qr.quiz_id ≠ quizId) :
    getQuizById (addQuestionsLoop db1 quizId qs [] 0).1 quizId =
      some
        { id := qz.id, title := qz.title, description := qz.description
          time_limit := qz.time_limit, user_id := qz.user_id
          questions := (loopRows quizId qs [] 0 db1.nextQuestionId).map formatQuestion } := by
  have hq := addQuestionsLoop_questions quizId qs db1 [] 0
  have hs := (addQuestionsLoop_state quizId qs db1 [] 0).1
  have hfil1 : db1.questions.filter (fun qr => qr.quiz_id == quizId) = [] := by
    rw [List.filter_eq_nil_iff]
    intro qr hqr
    simpa using hnoq qr hqr
  have hfil2 : (loopRows quizId qs [] 0 db1.nextQuestionId).filter
      (fun qr => qr.quiz_id == quizId) = loopRows quizId qs [] 0 db1.nextQuestionId := by
    rw [List.filter_eq_self]
    intro qr hqr
    simpa using loopRows_quiz_id quizId qs [] 0 db1.nextQuestionId qr hqr
  unfold getQuizById
  rw [hs, hfind, hq, List.filter_append, hfil1, hfil2, List.nil_append,
    sortByOrder_sorted _ (loopRows_pairwise quizId qs [] 0 db1.nextQuestionId)]

/-- C10: a validated create-quiz request that supplies `timeLimit = 0` stores
the quiz row with the default time limit 10, because `timeLimit || 10`
replaces any falsy value with the default. -/
theorem createQuiz_timeLimit_zero_defaults (db : DB) (userId : Nat) (title : String)
    (description : Option String) (qs : List QuestionInput) (fails : List Bool)
    (htitle : jsTrim title ≠ "") (hqs : qs ≠ []) :
    (createQuizHandler db userId (some title) description (some 0) qs fails).1.quizzes =
      db.quizzes ++
        [⟨db.nextQuizId, jsTrim title, jsDescOrEmpty description, 10, userId⟩] := by
  have h := (addQuestionsLoop_state db.nextQuizId qs
      { db with
          quizzes := db.quizzes ++
            [⟨db.nextQuizId, jsTrim title, jsDescOrEmpty description,
              jsOrDefaultNat (some 0) 10, userId⟩]
          nextQuizId := db.nextQuizId + 1 }
      fails 0).1
  rw [createQuizHandler_valid db userId title description (some 0) qs fails htitle hqs]
  simpa [jsOrDefaultNat] using h

/-- C10 witness: the generic default-time-limit theorem at a concrete request. -/
theorem createQuiz_timeLimit_zero_defaults_witness :
    (createQuizHandler DB.empty 7 (some "T") none (some 0)
        [⟨"Q1", ["A", "B"], 0⟩] []).1.quizzes =
      DB.empty.quizzes ++ [⟨1, jsTrim "T", jsDescOrEmpty none, 10, 7⟩] :=
  createQuiz_timeLimit_zero_defaults DB.empty 7 "T" none [⟨"Q1", ["A", "B"], 0⟩] []
    (by decide) (by simp)

/-- C3 (amended): when at least one per-question write fails, the handler does
not report success — it answers 500 "Some questions failed to save" — but only
after all question writes have settled: the quiz row remains persisted, and
every non-failing question write, including those issued after the first
failure, is still applied. -/
theorem createQuiz_partial_failure_behavior (db : DB) (userId : Nat) (title : String)
    (description : Option String) (timeLimit : Option Nat) (qs : List QuestionInput)
    (fails : List Bool) (htitle : jsTrim title ≠ "") (hqs : qs ≠ [])
    (hfail : ∃ i, i < qs.length ∧ fails.getD i false = true) :
    (createQuizHandler db userId (some title) description timeLimit qs fails).2 =
      ⟨500, some "Some questions failed to save", none⟩ ∧
    (createQuizHandler db userId (some title) description timeLimit qs fails).1.quizzes =
      db.quizzes ++
        [⟨db.nextQuizId, jsTrim title, jsDescOrEmpty description,
          jsOrDefaultNat timeLimit 10, userId⟩] ∧
    (createQuizHandler db userId (some title) description timeLimit qs fails).1.questions =
      db.questions ++ loopRows db.nextQuizId qs fails 0 db.nextQuestionId := by
  have hsnd := addQuestionsLoop_snd_of_fail db.nextQuizId qs
    { db with
        quizzes := db.quizzes ++
          [⟨db.nextQuizId, jsTrim title, jsDescOrEmpty description,
            jsOrDefaultNat timeLimit 10, userId⟩]
        nextQuizId := db.nextQuizId + 1 }
    fails 0 hfail
  have hqz := (addQuestionsLoop_state db.nextQuizId qs
    { db with
        quizzes := db.quizzes ++
          [⟨db.nextQuizId, jsTrim title, jsDescOrEmpty description,
            jsOrDefaultNat timeLimit 10, userId⟩]
        nextQuizId := db.nextQuizId + 1 }
    fails 0).1
  have hqr := addQuestionsLoop_questions db.nextQuizId qs
    { db with
        quizzes := db.quizzes ++
          [⟨db.nextQuizId, jsTrim title, jsDescOrEmpty description,
            jsOrDefaultNat timeLimit 10, userId⟩]
        nextQuizId := db.nextQuizId + 1 }
    fails 0
  rw [createQuizHandler_valid db userId title description timeLimit qs fails htitle hqs]
  exact ⟨by simp [hsnd], by simpa using hqz, by simpa using hqr⟩

/-- C3 witness: the amended partial-failure theorem at the concrete
two-question run whose first write fails. -/
theorem createQuiz_partial_failure_behavior_witness :
    (createQuizHandler DB.empty 7 (some "T") none none
        [⟨"Q1", ["A", "B"], 0⟩, ⟨"Q2", ["C", "D"], 1⟩] [true, false]).2 =
      ⟨500, some "Some questions failed to save", none⟩ ∧
    (createQuizHandler DB.empty 7 (some "T") none none
        [⟨"Q1", ["A", "B"], 0⟩, ⟨"Q2", ["C", "D"], 1⟩] [true, false]).1.quizzes =
      DB.empty.quizzes ++
        [⟨1, jsTrim "T", jsDescOrEmpty none, jsOrDefaultNat none 10, 7⟩] ∧
    (createQuizHandler DB.empty 7 (some "T") none none
        [⟨"Q1", ["A", "B"], 0⟩, ⟨"Q2", ["C", "D"], 1⟩] [true, false]).1.questions =
      DB.empty.questions ++
        loopRows 1 [⟨"Q1", ["A", "B"], 0⟩, ⟨"Q2", ["C", "D"], 1⟩] [true, false] 0 1 :=
  createQuiz_partial_failure_behavior DB.empty 7 "T" none none
    [⟨"Q1", ["A", "B"], 0⟩, ⟨"Q2", ["C", "D"], 1⟩] [true, false]
    (by decide) (by simp) ⟨0, by decide, by decide⟩

/-- C1: a create-quiz request whose questions each carry 2-4 non-empty options
and an in-range correct index answers 201 with the new quiz id, and a
subsequent fetch returns the questions in submission order, each with its
dense option list equal to the submitted options and its correct index equal
to the submitted one and valid for that list. -/
theorem create_quiz_roundtrip (db : DB) (userId : Nat) (title : String)
    (description : Option String) (timeLimit : Option Nat) (qs : List QuestionInput)
    (htitle : jsTrim title ≠ "") (hqs : qs ≠ [])
    (hvalid : ∀ q ∈ qs, 2 ≤ q.options.length ∧ q.options.length ≤ 4 ∧
      (∀ o ∈ q.options, o ≠ "") ∧ q.correct < q.options.length)
    (hfreshQz : ∀ qz ∈ db.quizzes, qz.id ≠ db.nextQuizId)
    (hfreshQr : ∀ qr ∈ db.questions, qr.quiz_id ≠ db.nextQuizId) :
    (createQuizHandler db userId (some title) description timeLimit qs []).2 =
      ⟨201, none, some db.nextQuizId⟩ ∧
    ∃ qf : QuizFull,
      getQuizById (createQuizHandler db userId (some title) description timeLimit qs []).1
        db.nextQuizId = some qf ∧
      qf.title = jsTrim title ∧
      qf.questions.map (fun fq => (fq.text, fq.options, fq.correct)) =
        qs.map (fun q => (q.text, q.options, q.correct)) ∧
      ∀ fq ∈ qf.questions, fq.correct < fq.options.length := by
  constructor
  · rw [createQuizHandler_valid db userId title description timeLimit qs [] htitle hqs]
    simp [addQuestionsLoop_noFails]
  · rw [createQuizHandler_valid db userId title description timeLimit qs [] htitle hqs]
    obtain ⟨hmap, hval⟩ := loopRows_format_roundtrip db.nextQuizId qs 0 db.nextQuestionId hvalid
    have h1 : db.quizzes.find? (fun r => r.id == db.nextQuizId) = none :=
      List.find?_eq_none.mpr (fun x hx => by simpa using hfreshQz x hx)
    have hfind :
        ({ db with
            quizzes := db.quizzes ++
              [⟨db.nextQuizId, jsTrim title, jsDescOrEmpty description,
                jsOrDefaultNat timeLimit 10, userId⟩]
            nextQuizId := db.nextQuizId + 1 } : DB).quizzes.find?
          (fun r => r.id == db.nextQuizId) =
          some ⟨db.nextQuizId, jsTrim title, jsDescOrEmpty description,
            jsOrDefaultNat timeLimit 10, userId⟩ := by
      simp [List.find?_append, h1, List.find?]
    have hfetch := getQuizById_after_noFail_loop
      { db with
          quizzes := db.quizzes ++
            [⟨db.nextQuizId, jsTrim title, jsDescOrEmpty description,
              jsOrDefaultNat timeLimit 10, userId⟩]
          nextQuizId := db.nextQuizId + 1 }
      db.nextQuizId qs
      ⟨db.nextQuizId, jsTrim title, jsDescOrEmpty description,
        jsOrDefaultNat timeLimit 10, userId⟩
      hfind hfreshQr
    exact ⟨_, hfetch, rfl, hmap, hval⟩

/-- C1 witness: the round-trip theorem at the spec's own example, a quiz
titled `T` with one question `Q1`, options `A`/`B`, correct index 0. -/
theorem create_quiz_roundtrip_witness :
    (createQuizHandler DB.empty 7 (some "T") none none
        [⟨"Q1", ["A", "B"], 0⟩] []).2 = ⟨201, none, some 1⟩ ∧
    ∃ qf : QuizFull,
      getQuizById (createQuizHandler DB.empty 7 (some "T") none none
          [⟨"Q1", ["A", "B"], 0⟩] []).1 1 = some qf ∧
      qf.title = jsTrim "T" ∧
      qf.questions.map (fun fq => (fq.text, fq.options, fq.correct)) =
        [(⟨"Q1", ["A", "B"], 0⟩ : QuestionInput)].map
          (fun q => (q.text, q.options, q.correct)) ∧
      ∀ fq ∈ qf.questions, fq.correct < fq.options.length :=
  create_quiz_roundtrip DB.empty 7 "T" none none [⟨"Q1", ["A", "B"], 0⟩]
    (by decide) (by simp) (by decide) (by simp [DB.empty]) (by simp [DB.empty])

/-- C4 (amended): registering with an already-registered email is answered 400
"User already exists" (Conflict) with no user created, but registering a
duplicate username under a fresh email passes the email pre-check, fails at
the storage unique constraint, and is answered 500 "Error creating user" —
not 400 — again with no user created. -/
theorem register_duplicate_outcomes (db : DB) (username email password : String)
    (hu : username ≠ "") (he : email ≠ "") (hp : ¬ password.length < 6) :
    ((∃ u, getUserByEmail db email = some u) →
      registerHandler db (some username) (some email) (some password) =
        (db, ⟨400, some "User already exists", none, none⟩)) ∧
    (getUserByEmail db email = none →
      (∃ u ∈ db.users, u.username = username) →
      registerHandler db (some username) (some email) (some password) =
        (db, ⟨500, some "Error creating user", none, none⟩)) := by
  have hpne : password ≠ "" := by
    intro h
    rw [h] at hp
    exact hp (by decide)
  constructor
  · rintro ⟨u, hmail⟩
    unfold registerHandler
    simp [jsTruthyStr, hu, he, hpne, hp, hmail]
  · intro hnone hdup
    have hany : db.users.any
        (fun u => u.username == username || u.email == email) = true := by
      rw [List.any_eq_true]
      obtain ⟨u, hmem, huser⟩ := hdup
      exact ⟨u, hmem, by simp [huser]⟩
    unfold registerHandler
    simp [jsTruthyStr, hu, he, hpne, hp, hnone, createUser, hany]

/-- C4 witness: on `dbAlice`, a duplicate email gets 400 and a duplicate
username with a fresh email gets 500. -/
theorem register_duplicate_outcomes_witness :
    registerHandler dbAlice (some "bob") (some "a@x.com") (some "secret1") =
      (dbAlice, ⟨400, some "User already exists", none, none⟩) ∧
    registerHandler dbAlice (some "alice") (some "b@x.com") (some "secret1") =
      (dbAlice, ⟨500, some "Error creating user", none, none⟩) :=
  ⟨(register_duplicate_outcomes dbAlice "bob" "a@x.com" "secret1"
      (by decide) (by decide) (by decide)).1
      ⟨⟨1, "alice", "a@x.com", bhash "password1"⟩, by rfl⟩,
   (register_duplicate_outcomes dbAlice "alice" "b@x.com" "secret1"
      (by decide) (by decide) (by decide)).2
      (by rfl) ⟨⟨1, "alice", "a@x.com", bhash "password1"⟩, by decide, rfl⟩⟩

/-- C8 (amended): with quizId, totalQuestions and timeTaken present with
nonzero values, a score of 0 passes validation — score is compared against
undefined, not checked for falsiness — and the result is persisted, the
response carrying the new result id. -/
theorem saveResult_score_zero_succeeds (db : DB) (userId qid total time : Nat)
    (answers : String) (hq : qid ≠ 0) (ht : total ≠ 0) (hm : time ≠ 0) :
    saveResultHandler db userId (some qid) (some 0) (some total) (some time) answers =
      ({ db with
          results := db.results ++ [⟨db.nextResultId, qid, userId, 0, total, time, answers⟩]
          nextResultId := db.nextResultId + 1 },
        ⟨200, none, some db.nextResultId⟩) := by
  unfold saveResultHandler saveResult
  simp [jsTruthyNat, hq, ht, hm]

/-- C8 witness: the amended score-zero theorem at a concrete request. -/
theorem saveResult_score_zero_succeeds_witness :
    saveResultHandler DB.empty 1 (some 2) (some 0) (some 3) (some 4) "[]" =
      ({ DB.empty with results := [⟨1, 2, 1, 0, 3, 4, "[]"⟩], nextResultId := 2 },
        ⟨200, none, some 1⟩) :=
  saveResult_score_zero_succeeds DB.empty 1 2 3 4 "[]"
    (by decide) (by decide) (by decide)

end QuizMaster
